import Mathlib

/-!
Shallow embedding of the calculator operation set and operation factory of
`app/operations.py`, together with theorems settling the specification
claims about them.

Modelling conventions:
* Python `Decimal` values are embedded as exact rationals (`ℚ`), matching
  the specification's arbitrary-precision-decimal framing of the system.
* A Python function that may raise is embedded as `Except PyError α`; the
  distinct exception classes become constructors of `PyError` carrying the
  message string that the source passes to the constructor.
* `Power.execute` and `Root.execute` route their result through
  `pow(float(..), float(..))`, a platform binary64 libm call with no exact
  mathematical specification; those two `execute` bodies are therefore
  parameterised by the function `fpow` (resp. `froot`) standing for that
  platform call, while their `validate_operands` logic is embedded exactly.
-/

/-- Modelled from the spec: the error taxonomy of `app.exceptions` (a module
of this repository that is not under `src/`). `ValidationError` is the
recoverable bad-operand error; `TypeError` and `ValueError` are the Python
builtins raised by the factory; `OverflowError` is the Python builtin raised
when a float computation overflows. Each carries its message string. -/
inductive PyError where
  | validationError (msg : String)
  | typeError (msg : String)
  | valueError (msg : String)
  | overflowError
deriving DecidableEq, Repr

/-- Truncation of a rational toward zero, as an integer: the `divide-integer`
rounding used by Python `Decimal` remainder. -/
def rat_trunc (q : ℚ) : ℤ := if q < 0 then ⌈q⌉ else ⌊q⌋

/-- Python `Decimal.__mod__`: the remainder of truncating division,
`a - b * trunc(a / b)` (General Decimal Arithmetic `remainder`), whose sign
follows the dividend — unlike Python integer `%`, whose sign follows the
divisor. -/
def decimal_mod (a b : ℚ) : ℚ := a - b * (rat_trunc (a / b) : ℚ)

/-- Base class `Operation.validate_operands` (operations.py lines 18-19):
the body is `pass`, so it always succeeds. Subclasses that do not override
it (Addition, Subtraction, Multiplication, Modulus, IntDivide, Percent,
AbsDiff) inherit exactly this no-op. -/
def Operation.validate_operands (a b : ℚ) : Except PyError Unit :=
  let _ := a
  let _ := b
  .ok ()

/-- `Addition.execute` (operations.py lines 25-28). -/
def Addition.execute (a b : ℚ) : Except PyError ℚ :=
  match Operation.validate_operands a b with
  | .error e => .error e
  | .ok () => .ok (a + b)

/-- `Subtraction.execute` (operations.py lines 31-34). -/
def Subtraction.execute (a b : ℚ) : Except PyError ℚ :=
  match Operation.validate_operands a b with
  | .error e => .error e
  | .ok () => .ok (a - b)

/-- `Multiplication.execute` (operations.py lines 37-40). -/
def Multiplication.execute (a b : ℚ) : Except PyError ℚ :=
  match Operation.validate_operands a b with
  | .error e => .error e
  | .ok () => .ok (a * b)

/-- `Division.validate_operands` (operations.py lines 44-47): calls the base
validator, then raises `ValidationError` when `b == 0`. -/
def Division.validate_operands (a b : ℚ) : Except PyError Unit :=
  match Operation.validate_operands a b with
  | .error e => .error e
  | .ok () =>
      if b = 0 then .error (.validationError "Division by zero is not allowed")
      else .ok ()

/-- `Division.execute` (operations.py lines 49-51). -/
def Division.execute (a b : ℚ) : Except PyError ℚ :=
  match Division.validate_operands a b with
  | .error e => .error e
  | .ok () => .ok (a / b)

/-- `Power.validate_operands` (operations.py lines 55-58): raises
`ValidationError` when `b < 0`. -/
def Power.validate_operands (a b : ℚ) : Except PyError Unit :=
  match Operation.validate_operands a b with
  | .error e => .error e
  | .ok () =>
      if b < 0 then .error (.validationError "Negative exponents not supported")
      else .ok ()

/-- `Power.execute` (operations.py lines 60-62): validates, then returns
`Decimal(pow(float(a), float(b)))`. The platform float path is the
parameter `fpow` (it may raise, e.g. `OverflowError`). -/
def Power.execute (fpow : ℚ → ℚ → Except PyError ℚ) (a b : ℚ) :
    Except PyError ℚ :=
  match Power.validate_operands a b with
  | .error e => .error e
  | .ok () => fpow a b

/-- `Root.validate_operands` (operations.py lines 66-71): raises
`ValidationError` when `a < 0`, then when `b == 0`. -/
def Root.validate_operands (a b : ℚ) : Except PyError Unit :=
  match Operation.validate_operands a b with
  | .error e => .error e
  | .ok () =>
      if a < 0 then .error (.validationError "Cannot calculate root of negative number")
      else if b = 0 then .error (.validationError "Zero root is undefined")
      else .ok ()

/-- `Root.execute` (operations.py lines 73-75): validates, then returns
`Decimal(pow(float(a), 1 / float(b)))`; the platform float path is the
parameter `froot`. -/
def Root.execute (froot : ℚ → ℚ → Except PyError ℚ) (a b : ℚ) :
    Except PyError ℚ :=
  match Root.validate_operands a b with
  | .error e => .error e
  | .ok () => froot a b

/-- `Modulus.execute` (operations.py lines 80-86): calls the inherited
no-op validator, then raises `ValidationError` inside `execute` itself when
`b == 0`, else returns `a % b` (Decimal truncating remainder). -/
def Modulus.execute (a b : ℚ) : Except PyError ℚ :=
  match Operation.validate_operands a b with
  | .error e => .error e
  | .ok () =>
      if b = 0 then .error (.validationError "Division by zero in modulus is not allowed")
      else .ok (decimal_mod a b)

/-- `IntDivide.execute` (operations.py lines 89-96): calls the inherited
no-op validator, raises `ValidationError` inside `execute` when `b == 0`,
else returns `(a / b).to_integral_value(rounding=ROUND_FLOOR)`, i.e. the
floor of the quotient as an integral-valued decimal. -/
def IntDivide.execute (a b : ℚ) : Except PyError ℚ :=
  match Operation.validate_operands a b with
  | .error e => .error e
  | .ok () =>
      if b = 0 then .error (.validationError "Division by zero in integer division is not allowed")
      else .ok ((⌊a / b⌋ : ℤ) : ℚ)

/-- `Percent.execute` (operations.py lines 100-106): calls the inherited
no-op validator, raises `ValidationError` inside `execute` when `b == 0`,
else returns `(a / b) * 100`. -/
def Percent.execute (a b : ℚ) : Except PyError ℚ :=
  match Operation.validate_operands a b with
  | .error e => .error e
  | .ok () =>
      if b = 0 then .error (.validationError "Cannot calculate percentage with denominator zero")
      else .ok ((a / b) * 100)

/-- `AbsDiff.execute` (operations.py lines 109-113): `abs(a - b)`. -/
def AbsDiff.execute (a b : ℚ) : Except PyError ℚ :=
  match Operation.validate_operands a b with
  | .error e => .error e
  | .ok () => .ok |a - b|

/-- The operation classes known to the embedding: the ten concrete
subclasses of `Operation` in operations.py, plus `userClass`, standing for
an arbitrary further Python class handed to `register_operation` (the `id`
distinguishes instances; `inherits` records whether
`issubclass(cls, Operation)` holds). Since every operation class in the
source is stateless, a freshly constructed instance is identified with its
class. -/
inductive OpClass where
  | addition
  | subtraction
  | multiplication
  | division
  | power
  | root
  | modulus
  | intDivide
  | percent
  | absDiff
  | userClass (id : Nat) (inherits : Bool)
deriving DecidableEq, Repr

/-- Result of `issubclass(cls, Operation)`: true for the ten subclasses in
the source, and the recorded flag for a user-supplied class. -/
def OpClass.inheritsOperation : OpClass → Bool
  | .userClass _ inherits => inherits
  | _ => true

/-- The `execute` method bound to each class. For `Power`/`Root` the
platform float path is supplied as `fpow`/`froot`. A `userClass` has an
arbitrary Python body that is not part of the source, so no method is
modelled for it. -/
def OpClass.exec (fpow froot : ℚ → ℚ → Except PyError ℚ) :
    OpClass → Option (ℚ → ℚ → Except PyError ℚ)
  | .addition => some Addition.execute
  | .subtraction => some Subtraction.execute
  | .multiplication => some Multiplication.execute
  | .division => some Division.execute
  | .power => some (Power.execute fpow)
  | .root => some (Root.execute froot)
  | .modulus => some Modulus.execute
  | .intDivide => some IntDivide.execute
  | .percent => some Percent.execute
  | .absDiff => some AbsDiff.execute
  | .userClass _ _ => none

/-- Python `str.lower` as used by the factory (all registry keys are ASCII):
lowercases each character, written at the character-list level so that it
evaluates by kernel reduction. -/
def py_lower (s : String) : String := String.mk (s.data.map Char.toLower)

/-- The factory registry: Python's `Dict[str, type]` embedded as an
association list holding at most one binding per key; lookup takes the
first (and only) binding. -/
def Registry := List (String × OpClass)

/-- Python `dict.get`: the value bound to `k`, if any. -/
def dict_get (m : Registry) (k : String) : Option OpClass :=
  (List.find? (fun p => p.1 = k) m).map (fun p => p.2)

/-- Python `dict[k] = v`: bind `k` to `v`, replacing any previous binding. -/
def dict_set (m : Registry) (k : String) (v : OpClass) : Registry :=
  (k, v) :: List.filter (fun p => p.1 ≠ k) m

/-- `OperationFactory._operations` (operations.py lines 121-132): the
initial name-to-class mapping. -/
def OperationFactory.default_operations : Registry :=
  [("add", .addition),
   ("subtract", .subtraction),
   ("multiply", .multiplication),
   ("divide", .division),
   ("power", .power),
   ("root", .root),
   ("modulus", .modulus),
   ("int_divide", .intDivide),
   ("percent", .percent),
   ("abs_diff", .absDiff)]

/-- `OperationFactory.register_operation` (operations.py lines 134-138):
raises `TypeError` unless the class inherits from `Operation` (leaving the
registry unchanged, since the exception aborts before the assignment), else
binds `name.lower()` to the class. -/
def OperationFactory.register_operation (m : Registry) (name : String)
    (operation_class : OpClass) : Except PyError Registry :=
  if ¬ operation_class.inheritsOperation then
    .error (.typeError "Operation class must inherit from Operation")
  else
    .ok (dict_set m (py_lower name) operation_class)

/-- `OperationFactory.create_operation` (operations.py lines 140-145):
looks up `operation_type.lower()`; raises `ValueError` when the lookup
fails (`if not operation_class` — a class object is always truthy, so only
an absent key triggers it), else returns a fresh instance of the class. -/
def OperationFactory.create_operation (m : Registry) (operation_type : String) :
    Except PyError OpClass :=
  match dict_get m (py_lower operation_type) with
  | none => .error (.valueError ("Unknown operation: " ++ operation_type))
  | some operation_class => .ok operation_class

/-- Modelled from the platform semantics of `pow(float, float)` for a
nonnegative integer exponent: binary64 has no finite value of magnitude
`2^1024` or more, so whenever the exact value `|a| ^ n` reaches `2^1024`
the libm call overflows and CPython raises `OverflowError` instead of
returning a float. This predicate states that exact overflow condition. -/
def float_pow_overflows (a : ℚ) (n : ℕ) : Bool :=
  decide ((2 : ℚ) ^ 1024 ≤ |a| ^ n)

/-! ### Helper lemmas -/

/-- The truncating remainder is zero when the dividend is zero, nonnegative
when the dividend is positive, and nonpositive when the dividend is
negative (for any nonzero divisor): the sign of `decimal_mod` follows the
dividend. -/
theorem decimal_mod_sign (a b : ℚ) (hb : b ≠ 0) :
    decimal_mod a b = 0 ∨
      (0 < decimal_mod a b ∧ 0 < a) ∨ (decimal_mod a b < 0 ∧ a < 0) := by
  have hcancel : b * (a / b) = a := by field_simp
  rcases lt_trichotomy a 0 with ha | ha | ha
  · -- a < 0 : the remainder is nonpositive
    have hle : decimal_mod a b ≤ 0 := by
      rcases hb.lt_or_lt with hbneg | hbpos
      · -- b < 0, so a / b > 0 and rat_trunc takes the floor
        have hq : 0 < a / b := div_pos_of_neg_of_neg ha hbneg
        have ht : rat_trunc (a / b) = ⌊a / b⌋ := by
          rw [rat_trunc, if_neg (not_lt.mpr hq.le)]
        have hfl : ((⌊a / b⌋ : ℤ) : ℚ) ≤ a / b := Int.floor_le (a / b)
        have := mul_le_mul_of_nonpos_left hfl hbneg.le
        rw [hcancel] at this
        unfold decimal_mod
        rw [ht]
        linarith
      · -- b > 0, so a / b < 0 and rat_trunc takes the ceiling
        have hq : a / b < 0 := div_neg_of_neg_of_pos ha hbpos
        have ht : rat_trunc (a / b) = ⌈a / b⌉ := by
          rw [rat_trunc, if_pos hq]
        have hcl : a / b ≤ ((⌈a / b⌉ : ℤ) : ℚ) := Int.le_ceil (a / b)
        have := mul_le_mul_of_nonneg_left hcl hbpos.le
        rw [hcancel] at this
        unfold decimal_mod
        rw [ht]
        linarith
    rcases eq_or_lt_of_le hle with heq | hlt
    · exact Or.inl heq
    · exact Or.inr (Or.inr ⟨hlt, ha⟩)
  · -- a = 0 : the remainder is zero
    subst ha
    left
    unfold decimal_mod rat_trunc
    rw [zero_div, if_neg (lt_irrefl 0)]
    simp
  · -- a > 0 : the remainder is nonnegative
    have hle : 0 ≤ decimal_mod a b := by
      rcases hb.lt_or_lt with hbneg | hbpos
      · -- b < 0, so a / b < 0 and rat_trunc takes the ceiling
        have hq : a / b < 0 := div_neg_of_pos_of_neg ha hbneg
        have ht : rat_trunc (a / b) = ⌈a / b⌉ := by
          rw [rat_trunc, if_pos hq]
        have hcl : a / b ≤ ((⌈a / b⌉ : ℤ) : ℚ) := Int.le_ceil (a / b)
        have := mul_le_mul_of_nonpos_left hcl hbneg.le
        rw [hcancel] at this
        unfold decimal_mod
        rw [ht]
        linarith
      · -- b > 0, so a / b > 0 and rat_trunc takes the floor
        have hq : 0 < a / b := div_pos ha hbpos
        have ht : rat_trunc (a / b) = ⌊a / b⌋ := by
          rw [rat_trunc, if_neg (not_lt.mpr hq.le)]
        have hfl : ((⌊a / b⌋ : ℤ) : ℚ) ≤ a / b := Int.floor_le (a / b)
        have := mul_le_mul_of_nonneg_left hfl hbpos.le
        rw [hcancel] at this
        unfold decimal_mod
        rw [ht]
        linarith
    rcases eq_or_lt_of_le hle with heq | hlt
    · exact Or.inl heq.symm
    · exact Or.inr (Or.inl ⟨hlt, ha⟩)

/-! ### Claim theorems -/

/-- C1 counterexample: the claim is false as stated — for Modulus (and
likewise IntDivide and Percent) the inherited `validate_operands` is the
base no-op, which succeeds even at `b = 0` (here at operands `(1, 0)`);
the divide-by-zero `ValidationError` is produced by `execute` itself. -/
theorem c1_counterexample :
    Operation.validate_operands 1 0 = Except.ok () ∧
    Modulus.execute 1 0 =
      Except.error (PyError.validationError "Division by zero in modulus is not allowed") := by
  exact ⟨rfl, rfl⟩

/-- C1 (amended): for Modulus, IntegerDivide and Percent with `b = 0`, a
ValidationError is raised before any computation of the result, but by the
`execute` body itself: these three classes inherit the base no-op
`validate_operands`, which succeeds, and `execute` raises the
divide-by-zero ValidationError right after calling it. -/
theorem c1_divide_by_zero_raised_in_execute (a b : ℚ) (hb : b = 0) :
    Operation.validate_operands a b = Except.ok () ∧
    Modulus.execute a b =
      Except.error (PyError.validationError "Division by zero in modulus is not allowed") ∧
    IntDivide.execute a b =
      Except.error (PyError.validationError "Division by zero in integer division is not allowed") ∧
    Percent.execute a b =
      Except.error (PyError.validationError "Cannot calculate percentage with denominator zero") := by
  subst hb
  refine ⟨rfl, ?_, ?_, ?_⟩ <;>
    simp [Modulus.execute, IntDivide.execute, Percent.execute, Operation.validate_operands]

/-- C1 witness: the amended statement instantiated at operands `(5, 0)`. -/
theorem c1_witness :
    Operation.validate_operands 5 0 = Except.ok () ∧
    Modulus.execute 5 0 =
      Except.error (PyError.validationError "Division by zero in modulus is not allowed") ∧
    IntDivide.execute 5 0 =
      Except.error (PyError.validationError "Division by zero in integer division is not allowed") ∧
    Percent.execute 5 0 =
      Except.error (PyError.validationError "Cannot calculate percentage with denominator zero") :=
  c1_divide_by_zero_raised_in_execute 5 0 rfl

/-- C2: for every `a` and nonzero `b`, `IntDivide.execute a b` returns the
floor of `a / b` as an integral-valued decimal — rounding toward negative
infinity, not toward zero. -/
theorem c2_int_divide_floors (a b : ℚ) (hb : b ≠ 0) :
    IntDivide.execute a b = Except.ok ((⌊a / b⌋ : ℤ) : ℚ) := by
  simp [IntDivide.execute, Operation.validate_operands, hb]

/-- C2 witness: `execute (-7) 2 = -4` (floor, not the truncation `-3`). -/
theorem c2_witness : IntDivide.execute (-7) 2 = Except.ok (-4) := by
  have hfloor : (⌊((-7 : ℚ) / 2)⌋ : ℤ) = -4 := by
    rw [Int.floor_eq_iff]
    norm_num
  rw [c2_int_divide_floors (-7) 2 (by norm_num), hfloor]
  norm_num

/-- C3: `Division.execute a b` raises the ValidationError with message
"Division by zero is not allowed" exactly when `b = 0`, and returns
`a / b` whenever `b ≠ 0`. -/
theorem c3_division_by_zero_iff (a b : ℚ) :
    (Division.execute a b =
        Except.error (PyError.validationError "Division by zero is not allowed") ↔
      b = 0) ∧
    (b ≠ 0 → Division.execute a b = Except.ok (a / b)) := by
  by_cases hb : b = 0
  · subst hb
    exact ⟨⟨fun _ => rfl, fun _ => rfl⟩, fun h => absurd rfl h⟩
  · constructor
    · constructor
      · intro h
        simp [Division.execute, Division.validate_operands,
          Operation.validate_operands, hb] at h
      · intro h
        exact absurd h hb
    · intro _
      simp [Division.execute, Division.validate_operands,
        Operation.validate_operands, hb]

/-- C3 witness: the divide-by-zero direction at `(5, 0)` and the quotient
direction at `(6, 3)`. -/
theorem c3_witness :
    Division.execute 5 0 =
      Except.error (PyError.validationError "Division by zero is not allowed") ∧
    Division.execute 6 3 = Except.ok (6 / 3) :=
  ⟨(c3_division_by_zero_iff 5 0).1.mpr rfl,
   (c3_division_by_zero_iff 6 3).2 (by norm_num)⟩

/-- C5: `create_operation` raises `ValueError` exactly when the lowercase
form of the requested name has no binding in the registry, and otherwise
returns a fresh instance of the class the lowercase name is bound to
(names are matched case-insensitively via `lower()`). -/
theorem c5_create_operation_value_error (m : Registry) (name : String) :
    (OperationFactory.create_operation m name =
        Except.error (PyError.valueError ("Unknown operation: " ++ name)) ↔
      dict_get m (py_lower name) = none) ∧
    (∀ C, dict_get m (py_lower name) = some C →
      OperationFactory.create_operation m name = Except.ok C) := by
  unfold OperationFactory.create_operation
  cases h : dict_get m (py_lower name) with
  | none => simp
  | some c => simp

/-- C5 witness: on the default registry, the unregistered name `foo` raises
`ValueError` while the registered name `DIVIDE` (case-insensitive match of
`divide`) returns the Division instance. -/
theorem c5_witness :
    OperationFactory.create_operation OperationFactory.default_operations "foo" =
      Except.error (PyError.valueError ("Unknown operation: " ++ "foo")) ∧
    OperationFactory.create_operation OperationFactory.default_operations "DIVIDE" =
      Except.ok OpClass.division :=
  ⟨(c5_create_operation_value_error OperationFactory.default_operations "foo").1.mpr rfl,
   (c5_create_operation_value_error OperationFactory.default_operations "DIVIDE").2
     OpClass.division rfl⟩

/-- C6: after a successful `register_operation name C` (which requires `C`
to inherit from `Operation`), `create_operation s` returns an instance of
`C` for every `s` with the same lowercase form as `name`, regardless of any
mapping previously registered under that name; when `C` does not inherit
from `Operation`, `register_operation` raises `TypeError` (and, the raise
aborting before the assignment, the registry is unchanged). -/
theorem c6_register_operation (m : Registry) (name s : String) (C : OpClass)
    (hs : py_lower s = py_lower name) :
    (C.inheritsOperation = true →
      (OperationFactory.register_operation m name C).bind
          (fun m2 => OperationFactory.create_operation m2 s) = Except.ok C) ∧
    (C.inheritsOperation = false →
      OperationFactory.register_operation m name C =
        Except.error (PyError.typeError "Operation class must inherit from Operation")) := by
  constructor
  · intro hC
    simp only [OperationFactory.register_operation, hC, Bool.not_true,
      Bool.false_eq_true, if_false, Except.bind]
    simp [OperationFactory.create_operation, hs, dict_get, dict_set]
  · intro hC
    simp [OperationFactory.register_operation, hC]

/-- C6 witness: registering the conforming user class under `MyOp` on the
default registry makes `create_operation "MYOP"` return it, while
registering a non-conforming class raises `TypeError`. -/
theorem c6_witness :
    ((OperationFactory.register_operation OperationFactory.default_operations "MyOp"
          (OpClass.userClass 0 true)).bind
        (fun m2 => OperationFactory.create_operation m2 "MYOP") =
      Except.ok (OpClass.userClass 0 true)) ∧
    (OperationFactory.register_operation OperationFactory.default_operations "MyOp"
        (OpClass.userClass 1 false) =
      Except.error (PyError.typeError "Operation class must inherit from Operation")) :=
  ⟨(c6_register_operation OperationFactory.default_operations "MyOp" "MYOP"
      (OpClass.userClass 0 true) rfl).1 rfl,
   (c6_register_operation OperationFactory.default_operations "MyOp" "MYOP"
      (OpClass.userClass 1 false) rfl).2 rfl⟩

/-- C7: the operations are stateless and deterministic — for every variant
registered in the factory's default table, whenever `execute` (whose first
step is the only validation performed) yields results on two invocations
with identical operands, the results are identical. -/
theorem c7_execute_deterministic (fpow froot : ℚ → ℚ → Except PyError ℚ)
    (name : String) (C : OpClass)
    (hreg : dict_get OperationFactory.default_operations name = some C)
    (f : ℚ → ℚ → Except PyError ℚ) (hf : OpClass.exec fpow froot C = some f)
    (a b r1 r2 : ℚ) (h1 : f a b = Except.ok r1) (h2 : f a b = Except.ok r2) :
    r1 = r2 := by
  have h := h1.symm.trans h2
  exact Except.ok.inj h

/-- C7 witness: Addition (registered as `add`), executed twice at `(2, 3)`,
gives the result `5` both times. -/
theorem c7_witness : Addition.execute 2 3 = Except.ok 5 ∧ (5 : ℚ) = 5 := by
  have hexec : Addition.execute 2 3 = Except.ok 5 := by
    norm_num [Addition.execute, Operation.validate_operands]
  refine ⟨hexec, ?_⟩
  exact c7_execute_deterministic
    (fun _ _ => Except.error PyError.overflowError)
    (fun _ _ => Except.error PyError.overflowError)
    "add" OpClass.addition rfl Addition.execute rfl 2 3 5 5 hexec hexec

/-- C8: `Modulus.execute` is the remainder of truncating (round-toward-zero)
division: `execute (-7) 3 = -1` (not `2` as Python integer `%` would give);
for every nonzero divisor the result is zero or has the sign of the
dividend; and the identity `a = IntDivide(a,b) * b + Modulus(a,b)` fails
for some inputs, because IntDivide floors while Modulus truncates. -/
theorem c8_modulus_truncating (a b : ℚ) (hb : b ≠ 0) :
    Modulus.execute (-7) 3 = Except.ok (-1) ∧
    (∀ r, Modulus.execute a b = Except.ok r →
      r = 0 ∨ (0 < r ∧ 0 < a) ∨ (r < 0 ∧ a < 0)) ∧
    (∃ q m, IntDivide.execute (-7) 3 = Except.ok q ∧
      Modulus.execute (-7) 3 = Except.ok m ∧ (-7 : ℚ) ≠ q * 3 + m) := by
  have hceil : (⌈((-7 : ℚ) / 3)⌉ : ℤ) = -2 := by
    rw [Int.ceil_eq_iff]
    norm_num
  have hmod : Modulus.execute (-7) 3 = Except.ok (-1) := by
    have htr : rat_trunc ((-7 : ℚ) / 3) = -2 := by
      rw [rat_trunc, if_pos (by norm_num : ((-7 : ℚ) / 3) < 0), hceil]
    simp only [Modulus.execute, Operation.validate_operands, decimal_mod, htr]
    norm_num
  have hflr : (⌊((-7 : ℚ) / 3)⌋ : ℤ) = -3 := by
    rw [Int.floor_eq_iff]
    norm_num
  refine ⟨hmod, ?_, ⟨-3, -1, ?_, hmod, by norm_num⟩⟩
  · intro r hr
    simp only [Modulus.execute, Operation.validate_operands, hb, if_false,
      Except.ok.injEq] at hr
    subst hr
    exact decimal_mod_sign a b hb
  · simp only [IntDivide.execute, Operation.validate_operands, hflr]
    norm_num

/-- C8 witness: the truncating-remainder scenario `execute (-7) 3 = -1`. -/
theorem c8_witness : Modulus.execute (-7) 3 = Except.ok (-1) :=
  (c8_modulus_truncating (-7) 3 (by norm_num)).1

/-- C9: the operands `(10, 400)` pass Power's validation (`b ≥ 0`), yet the
exact value `10 ^ 400` reaches `2 ^ 1024`, beyond every finite binary64
value, so the floating-point intermediate `pow(float(10), float(400))`
overflows (CPython raises `OverflowError`, which is not a ValidationError):
successful validation does not guarantee that `execute` returns a decimal
result. -/
theorem c9_power_overflow_after_validation :
    Power.validate_operands 10 400 = Except.ok () ∧
    float_pow_overflows 10 400 = true := by
  constructor
  · rfl
  · unfold float_pow_overflows
    rw [decide_eq_true_eq]
    norm_num

/-- C10: for every nonzero `b`, `Percent.execute a b` is exactly
`Division.execute a b` rescaled by `100` — division's result mapped
through multiplication by 100, under the same (exact) arithmetic. -/
theorem c10_percent_is_scaled_division (a b : ℚ) (hb : b ≠ 0) :
    Percent.execute a b =
      Except.map (fun r => r * 100) (Division.execute a b) := by
  simp [Percent.execute, Division.execute, Division.validate_operands,
    Operation.validate_operands, hb, Except.map]

/-- C10 witness: at `(1, 4)` the relation holds and both sides evaluate to
`25` (division gives `1 / 4`, rescaled by `100`). -/
theorem c10_witness :
    Percent.execute 1 4 =
      Except.map (fun r => r * 100) (Division.execute 1 4) ∧
    Percent.execute 1 4 = Except.ok 25 := by
  refine ⟨c10_percent_is_scaled_division 1 4 (by norm_num), ?_⟩
  norm_num [Percent.execute, Operation.validate_operands]
